import Mathlib

/-!
Verification of the authentication / account-management core of the
`plate` backend (FastAPI user-account service) against its natural-language
specification.

The Python source under `src/backend/app` is shallowly embedded below:
pure helpers become Lean functions, the database session becomes an explicit
`Store` value threaded through the CRUD operations, raised exceptions become
explicit result constructors.  External collaborators that are not part of
the repository sources (the bcrypt hasher and the JWT signer live in
`app/core/security.py`, which is not present under `src/`) are either taken
as function parameters (`hash`, `verifyPassword`) or modelled from the
specification (the token codec, see `IssuedToken` below).
-/

namespace Plate

/-! ## Data model

`app/models/user.py` is not under `src/`; the account record's fields are
reconstructed from `CRUDUser.create` (`app/crud/user.py`), the pydantic
schemas (`app/schemas/user.py`) and the spec's section 3.  The
persistence-layer audit timestamps (`created_at`, `updated_at`) are owned by
the database and are irrelevant to every claim, so they are not modelled. -/

structure Account where
  id : Nat
  email : String
  username : String
  full_name : Option String
  hashed_password : String
  is_active : Bool
  is_superuser : Bool
  deriving Repr, DecidableEq

/-- The database, modelled as the list of persisted accounts plus the next
id the persistence layer will assign. -/
structure Store where
  accounts : List Account
  nextId : Nat
  deriving Repr, DecidableEq

/-! ## Pydantic schemas (`app/schemas/user.py`) -/

/-- Schema `UserCreate`: email, username, optional full name, password, and the
`UserBase` flags with their schema defaults `is_active = True`,
`is_superuser = False`. -/
structure UserCreate where
  email : String
  username : String
  full_name : Option String := none
  is_active : Bool := true
  is_superuser : Bool := false
  password : String
  deriving Repr, DecidableEq

/-- Schema `UserUpdate`: every field optional; `none` models a field absent from the
patch (pydantic `model_dump(exclude_unset=True)` omits it).  The schema has
no `is_superuser` field.  An explicit JSON `null` for a field is conflated
with the field being absent; no claim distinguishes the two. -/
structure UserUpdate where
  email : Option String := none
  username : Option String := none
  full_name : Option String := none
  password : Option String := none
  is_active : Option Bool := none
  deriving Repr, DecidableEq

/-- Schema `User`, the response schema (`UserInDBBase` without `hashed_password`):
what every account-returning endpoint serialises.  It has no password and no
hash field. -/
structure UserOut where
  email : String
  username : String
  full_name : Option String
  is_active : Bool
  is_superuser : Bool
  id : Nat
  deriving Repr, DecidableEq

/-- The pydantic `from_attributes` projection of a stored account onto the
response schema `User`. -/
def toPublic (a : Account) : UserOut :=
  { email := a.email, username := a.username, full_name := a.full_name,
    is_active := a.is_active, is_superuser := a.is_superuser, id := a.id }

/-- JSON serialisation of the `User` response schema as a key/value list, in
schema field order.  Used to state that no password key is ever emitted. -/
def serializeUserOut (u : UserOut) : List (String × String) :=
  [("email", u.email), ("username", u.username),
   ("full_name", match u.full_name with | some s => s | none => "null"),
   ("is_active", if u.is_active then "true" else "false"),
   ("is_superuser", if u.is_superuser then "true" else "false"),
   ("id", toString u.id)]

/-! ## Password policy (`app/core/password_validator.py`) -/

/-- Character class of the regex `[A-Z]`. -/
def matchUpper (c : Char) : Bool := 'A' ≤ c && c ≤ 'Z'

/-- Character class of the regex `[a-z]`. -/
def matchLower (c : Char) : Bool := 'a' ≤ c && c ≤ 'z'

/-- Code-point ranges (inclusive) of the Unicode decimal digits, category
Nd — the characters Python's regex digit class matches on `str` patterns.
The table is Unicode 14.0's Nd blocks, as carried by CPython 3.11's
`unicodedata`. -/
def ndRanges : List (Nat × Nat) :=
  [(0x30, 0x39), (0x660, 0x669), (0x6F0, 0x6F9), (0x7C0, 0x7C9),
   (0x966, 0x96F), (0x9E6, 0x9EF), (0xA66, 0xA6F), (0xAE6, 0xAEF),
   (0xB66, 0xB6F), (0xBE6, 0xBEF), (0xC66, 0xC6F), (0xCE6, 0xCEF),
   (0xD66, 0xD6F), (0xDE6, 0xDEF), (0xE50, 0xE59), (0xED0, 0xED9),
   (0xF20, 0xF29), (0x1040, 0x1049), (0x1090, 0x1099), (0x17E0, 0x17E9),
   (0x1810, 0x1819), (0x1946, 0x194F), (0x19D0, 0x19D9), (0x1A80, 0x1A89),
   (0x1A90, 0x1A99), (0x1B50, 0x1B59), (0x1BB0, 0x1BB9), (0x1C40, 0x1C49),
   (0x1C50, 0x1C59), (0xA620, 0xA629), (0xA8D0, 0xA8D9), (0xA900, 0xA909),
   (0xA9D0, 0xA9D9), (0xA9F0, 0xA9F9), (0xAA50, 0xAA59), (0xABF0, 0xABF9),
   (0xFF10, 0xFF19), (0x104A0, 0x104A9), (0x10D30, 0x10D39),
   (0x11066, 0x1106F), (0x110F0, 0x110F9), (0x11136, 0x1113F),
   (0x111D0, 0x111D9), (0x112F0, 0x112F9), (0x11450, 0x11459),
   (0x114D0, 0x114D9), (0x11650, 0x11659), (0x116C0, 0x116C9),
   (0x11730, 0x11739), (0x118E0, 0x118E9), (0x11950, 0x11959),
   (0x11C50, 0x11C59), (0x11D50, 0x11D59), (0x11DA0, 0x11DA9),
   (0x16A60, 0x16A69), (0x16AC0, 0x16AC9), (0x16B50, 0x16B59),
   (0x1D7CE, 0x1D7FF), (0x1E140, 0x1E149), (0x1E2F0, 0x1E2F9),
   (0x1E950, 0x1E959), (0x1FBF0, 0x1FBF9)]

/-- Character class of the regex digit class on `str` patterns: any Unicode
decimal digit (category Nd). -/
def matchDigit (c : Char) : Bool :=
  ndRanges.any (fun r => r.1 ≤ c.toNat && c.toNat ≤ r.2)

def msgLength : String := "Password must be at least 8 characters long"
def msgUpper : String := "Password must contain at least one uppercase letter"
def msgLower : String := "Password must contain at least one lowercase letter"
def msgDigit : String := "Password must contain at least one number"

/-- Function `validate_password`: collects one message per violated rule, in source
order (length, uppercase, lowercase, digit). -/
def validate_password (password : String) : List String :=
  (if password.length < 8 then [msgLength] else []) ++
  (if password.data.any matchUpper then [] else [msgUpper]) ++
  (if password.data.any matchLower then [] else [msgLower]) ++
  (if password.data.any matchDigit then [] else [msgDigit])

/-- Function `validate_password_or_raise`: raises `PasswordValidationError` carrying
the joined messages when any rule is violated. -/
def validate_password_or_raise (password : String) : Except String Unit :=
  match validate_password password with
  | [] => .ok ()
  | errors => .error (String.intercalate "; " errors)

/-! ## CRUD layer (`app/crud/base.py`, `app/crud/user.py`)

The async database session becomes an explicit `Store` threaded through each
operation.  The password hasher `get_password_hash` / `verify_password`
(from the absent `app/core/security.py`) is passed in as the parameters
`hash` and `vp`. -/

/-- Lookup `CRUDUser.get_by_email`: first stored account with the given email. -/
def get_by_email (st : Store) (email : String) : Option Account :=
  st.accounts.find? (fun a => a.email = email)

/-- Lookup `CRUDUser.get_by_username`: first stored account with the given username. -/
def get_by_username (st : Store) (username : String) : Option Account :=
  st.accounts.find? (fun a => a.username = username)

/-- Lookup `CRUDBase.get`: fetch by (integer) id. -/
def get_by_id (st : Store) (i : Int) : Option Account :=
  st.accounts.find? (fun a => (a.id : Int) = i)

/-- Operation `CRUDUser.create`: validate the password, then persist a new account
whose `hashed_password` is the hash of the plaintext and whose flags are
taken from the input schema.  On a policy violation the exception propagates
and nothing is written (the returned store is the input store). -/
def CRUDUser.create (hash : String → String) (st : Store) (obj_in : UserCreate) :
    Except String (Account × Store) :=
  match validate_password_or_raise obj_in.password with
  | .error e => .error e
  | .ok _ =>
    let db_obj : Account :=
      { id := st.nextId, email := obj_in.email, username := obj_in.username,
        full_name := obj_in.full_name,
        hashed_password := hash obj_in.password,
        is_active := obj_in.is_active, is_superuser := obj_in.is_superuser }
    .ok (db_obj, { accounts := st.accounts ++ [db_obj], nextId := st.nextId + 1 })

/-- Committing an updated row: the store keeps every account except that the
row carrying the updated account's id is replaced. -/
def Store.replaceById (st : Store) (i : Nat) (a : Account) : Store :=
  { st with accounts := st.accounts.map (fun b => if b.id = i then a else b) }

/-- Operation `CRUDUser.update` composed with `CRUDBase.update`: dump the patch with
unset fields excluded; if a password is present, validate it, hash it, drop
the plaintext key and store the hash under `hashed_password`; then assign
exactly the dumped fields onto the existing row (`is_superuser` is not a
field of `UserUpdate`, so it is never in the dump).  The store replaces the
row with the matching id. -/
def CRUDUser.update (hash : String → String) (st : Store) (db_obj : Account)
    (obj_in : UserUpdate) : Except String (Account × Store) :=
  match obj_in.password with
  | some p =>
    match validate_password_or_raise p with
    | .error e => .error e
    | .ok _ =>
      let updated : Account :=
        { id := db_obj.id,
          email := (obj_in.email).getD db_obj.email,
          username := (obj_in.username).getD db_obj.username,
          full_name := match obj_in.full_name with
            | some v => some v
            | none => db_obj.full_name,
          hashed_password := hash p,
          is_active := (obj_in.is_active).getD db_obj.is_active,
          is_superuser := db_obj.is_superuser }
      .ok (updated, st.replaceById db_obj.id updated)
  | none =>
    let updated : Account :=
      { id := db_obj.id,
        email := (obj_in.email).getD db_obj.email,
        username := (obj_in.username).getD db_obj.username,
        full_name := match obj_in.full_name with
          | some v => some v
          | none => db_obj.full_name,
        hashed_password := db_obj.hashed_password,
        is_active := (obj_in.is_active).getD db_obj.is_active,
        is_superuser := db_obj.is_superuser }
    .ok (updated, st.replaceById db_obj.id updated)

/-- Operation `CRUDUser.authenticate`: look up by email; absent ⇒ `none`; then verify
the password against the stored hash; mismatch ⇒ `none`; else the account.
`vp plaintext digest` is `verify_password` from the external hasher. -/
def CRUDUser.authenticate (vp : String → String → Bool) (st : Store)
    (email password : String) : Option Account :=
  match get_by_email st email with
  | none => none
  | some user =>
    if vp password user.hashed_password then some user else none

/-! ## Endpoint layer (`app/api/v1/endpoints/users.py`) -/

/-- Outcome of a request handler: a value, a raised `HTTPException` with its
status code and detail string, or an exception that no handler catches
(pydantic `ValidationError`, `ValueError`), which the framework surfaces as
an internal server error. -/
inductive Outcome (α : Type) where
  | ok (value : α)
  | http (status : Nat) (detail : String)
  | uncaught (exc : String)
  deriving Repr, DecidableEq

def dupEmailDetail : String := "A user with this email already exists"
def dupUsernameDetail : String := "A user with this username already exists"

/-- Endpoint `create_user_signup` (`POST /users/signup`): duplicate-email check, then
duplicate-username check, then `CRUDUser.create`; a `PasswordValidationError`
is caught and re-raised as a 400.  The returned store is unchanged on every
error path. -/
def create_user_signup (hash : String → String) (st : Store) (user_in : UserCreate) :
    Outcome Account × Store :=
  match get_by_email st user_in.email with
  | some _ => (.http 400 dupEmailDetail, st)
  | none =>
    match get_by_username st user_in.username with
    | some _ => (.http 400 dupUsernameDetail, st)
    | none =>
      match CRUDUser.create hash st user_in with
      | .error e => (.http 400 e, st)
      | .ok (user, st') => (.ok user, st')

/-- The guard `user_in.email and user_in.email != current_user.email`
followed by the lookup in `update_user_me`: the duplicate-email check fires
only when the patch carries a truthy email that differs from the caller's
current one and some stored account has it. -/
def emailConflict (st : Store) (current_user : Account) (user_in : UserUpdate) : Bool :=
  match user_in.email with
  | some e =>
    if e ≠ "" ∧ e ≠ current_user.email then (get_by_email st e).isSome else false
  | none => false

/-- The corresponding duplicate-username guard of `update_user_me`. -/
def usernameConflict (st : Store) (current_user : Account) (user_in : UserUpdate) :
    Bool :=
  match user_in.username with
  | some u =>
    if u ≠ "" ∧ u ≠ current_user.username then (get_by_username st u).isSome
    else false
  | none => false

/-- Endpoint `update_user_me` (`PUT /users/me`): the duplicate checks run only when
the patch carries a truthy email/username that differs from the caller's
current value; then `CRUDUser.update` applies the patch.  A
`PasswordValidationError` from the update is not caught by this handler. -/
def update_user_me (hash : String → String) (st : Store) (current_user : Account)
    (user_in : UserUpdate) : Outcome Account × Store :=
  if emailConflict st current_user user_in then (.http 400 dupEmailDetail, st)
  else if usernameConflict st current_user user_in then
    (.http 400 dupUsernameDetail, st)
  else
    match CRUDUser.update hash st current_user user_in with
    | .error e => (.uncaught e, st)
    | .ok (user, st') => (.ok user, st')

/-! ## Identity resolver chain (`app/api/deps.py`) -/

/-- The `sub` claim of a successfully decoded JWT payload, as
`payload.get("sub")` sees it: absent (`None`) or a JSON string.  A payload
whose `sub` is a non-string JSON type never reaches this point: jose's
`jwt.decode` validates claim types and raises `JWTClaimsError`, a
`JWTError`, so that case is part of `TokenView.invalid`. -/
inductive SubClaim where
  | missing
  | str (s : String)
  deriving Repr, DecidableEq

/-- A presented bearer token, as `jwt.decode` classifies it: `invalid` when
decoding raises `JWTError` (bad signature, malformed payload, expired,
algorithm mismatch, invalid claim type), else the decoded payload's subject
claim. -/
inductive TokenView where
  | invalid
  | valid (sub : SubClaim)
  deriving Repr, DecidableEq

/-- ASCII decimal digit, for the numeral parser below. -/
def isAsciiDigit (c : Char) : Bool := '0' ≤ c && c ≤ '9'

/-- Python's `int(s)` on a string: optional surrounding whitespace, optional
sign, then one or more digits, else it raises `ValueError`.  (Python also
accepts underscore digit separators and non-ASCII decimal digits in
numerals; the claims only need that a decimal numeral parses and that a
string with no digit at all, such as "abc", raises.) -/
def stripWs (cs : List Char) : List Char :=
  ((cs.dropWhile Char.isWhitespace).reverse.dropWhile Char.isWhitespace).reverse

def parsePyInt (s : String) : Option Int :=
  let body := stripWs s.data
  match body with
  | '+' :: rest =>
    if rest ≠ [] ∧ rest.all isAsciiDigit then
      some (rest.foldl (fun n c => n * 10 + ((c.toNat : Int) - ('0'.toNat : Int))) 0)
    else none
  | '-' :: rest =>
    if rest ≠ [] ∧ rest.all isAsciiDigit then
      some (-(rest.foldl (fun n c => n * 10 + ((c.toNat : Int) - ('0'.toNat : Int))) 0))
    else none
  | rest =>
    if rest ≠ [] ∧ rest.all isAsciiDigit then
      some (rest.foldl (fun n c => n * 10 + ((c.toNat : Int) - ('0'.toNat : Int))) 0)
    else none

def credentialsDetail : String := "Could not validate credentials"

/-- Dependency `get_current_user`: decode the token (`JWTError` ⇒ the uniform 401);
a missing `sub` ⇒ the uniform 401; `int(token_data.sub)` on a non-numeral
subject raises a `ValueError` outside the `try`, which nothing catches; an
id that resolves to no account ⇒ the uniform 401; else the account. -/
def get_current_user (st : Store) (token : TokenView) : Outcome Account :=
  match token with
  | .invalid => .http 401 credentialsDetail
  | .valid .missing => .http 401 credentialsDetail
  | .valid (.str s) =>
    match parsePyInt s with
    | none => .uncaught "ValueError"
    | some i =>
      match get_by_id st i with
      | none => .http 401 credentialsDetail
      | some user => .ok user

/-- Dependency `get_current_active_user`: `get_current_user`, then reject an inactive
account with 400 "Inactive user". -/
def get_current_active_user (st : Store) (token : TokenView) : Outcome Account :=
  match get_current_user st token with
  | .ok user => if user.is_active then .ok user else .http 400 "Inactive user"
  | e => e

/-- Dependency `get_current_superuser`: `get_current_user` — not
`get_current_active_user` — then reject a non-superuser with 403. -/
def get_current_superuser (st : Store) (token : TokenView) : Outcome Account :=
  match get_current_user st token with
  | .ok user =>
    if user.is_superuser then .ok user
    else .http 403 "The user doesn't have enough privileges"
  | e => e

/-! ## Token codec -/

/-- Modelled from the spec: `app/core/security.py` (the Token Codec,
`create_access_token` and JWT verification) is not under `src/`; only its
tests and callers are.  Per spec 4.3 a token is a signed claim set holding
exactly a subject and an absolute expiration instant; the signature is
modelled by recording the signing secret, and verification checks the
secret and that the expiration lies in the future. -/
structure IssuedToken where
  sub : String
  exp : Nat
  sig : Nat
  deriving Repr, DecidableEq

/-- Modelled from the spec: `issue(subject, ttl)` embeds the subject and an
absolute expiration instant equal to the issue time plus the ttl, signed
with the process-wide secret. -/
def issueToken (secret : Nat) (subject : String) (ttl : Nat) (now : Nat) : IssuedToken :=
  { sub := subject, exp := now + ttl, sig := secret }

/-- Modelled from the spec: verification fails on a secret mismatch or an
expiration not in the future, and otherwise yields the subject. -/
def verifyToken (secret : Nat) (tok : IssuedToken) (now : Nat) : Option String :=
  if tok.sig = secret ∧ now < tok.exp then some tok.sub else none

/-! ## Theorems -/

/-- C6: for every password `p` (any Unicode string, no upper length bound),
`validate_password p` is empty exactly when `p` has at least 8 characters
and contains an upper-case letter, a lower-case letter and a digit;
otherwise the result is non-empty and carries exactly one message per
violated rule (each rule's message is present iff that rule is violated,
and the number of messages equals the number of violated rules). -/
theorem c6_validate_password_spec (p : String) :
    (validate_password p = [] ↔
      8 ≤ p.length ∧ (∃ c ∈ p.data, matchUpper c) ∧ (∃ c ∈ p.data, matchLower c) ∧
        (∃ c ∈ p.data, matchDigit c))
    ∧ (msgLength ∈ validate_password p ↔ p.length < 8)
    ∧ (msgUpper ∈ validate_password p ↔ ¬ ∃ c ∈ p.data, matchUpper c)
    ∧ (msgLower ∈ validate_password p ↔ ¬ ∃ c ∈ p.data, matchLower c)
    ∧ (msgDigit ∈ validate_password p ↔ ¬ ∃ c ∈ p.data, matchDigit c)
    ∧ (validate_password p).length =
        (if p.length < 8 then 1 else 0) +
        (if ∃ c ∈ p.data, matchUpper c then 0 else 1) +
        (if ∃ c ∈ p.data, matchLower c then 0 else 1) +
        (if ∃ c ∈ p.data, matchDigit c then 0 else 1) := by
  have hU : p.data.any matchUpper = true ↔ ∃ c ∈ p.data, matchUpper c :=
    List.any_eq_true
  have hL : p.data.any matchLower = true ↔ ∃ c ∈ p.data, matchLower c :=
    List.any_eq_true
  have hD : p.data.any matchDigit = true ↔ ∃ c ∈ p.data, matchDigit c :=
    List.any_eq_true
  unfold validate_password
  by_cases h1 : p.length < 8 <;>
    by_cases h2 : p.data.any matchUpper = true <;>
      by_cases h3 : p.data.any matchLower = true <;>
        by_cases h4 : p.data.any matchDigit = true <;>
          simp [h1, h2, h3, h4, ← hU, ← hL, ← hD, msgLength, msgUpper, msgLower,
            msgDigit] <;> omega

/-- C6 witness: the spec's concrete examples, via `c6_validate_password_spec`. -/
theorem c6_witness :
    validate_password "Abcdefg1" = [] ∧ msgLength ∈ validate_password "abc" := by
  constructor
  · exact (c6_validate_password_spec "Abcdefg1").1.mpr (by decide)
  · exact (c6_validate_password_spec "abc").2.1.mpr (by decide)

/-- The account record `CRUDUser.create` persists for a given input: id
assigned by the store, flags copied from the input schema, and the password
present only through its hash. -/
def signupAccount (hash : String → String) (st : Store) (inp : UserCreate) : Account :=
  { id := st.nextId, email := inp.email, username := inp.username,
    full_name := inp.full_name, hashed_password := hash inp.password,
    is_active := inp.is_active, is_superuser := inp.is_superuser }

/-- C3: signup rejects a used email with the duplicate-email error and a used
username with the (distinct) duplicate-username error, leaving the store
untouched in both cases (and also when the password policy fails); otherwise
it persists exactly one new account, with the hashed password and with the
caller's `is_active` / `is_superuser` values, whose schema defaults are
`true` / `false`, and returns the created record. -/
theorem c3_signup_spec (hash : String → String) (st : Store) (inp : UserCreate) :
    (∀ u, get_by_email st inp.email = some u →
      create_user_signup hash st inp = (.http 400 dupEmailDetail, st))
    ∧ (get_by_email st inp.email = none →
       ∀ u, get_by_username st inp.username = some u →
        create_user_signup hash st inp = (.http 400 dupUsernameDetail, st))
    ∧ dupEmailDetail ≠ dupUsernameDetail
    ∧ (validate_password inp.password ≠ [] →
        (create_user_signup hash st inp).2 = st ∧
        ∀ a, (create_user_signup hash st inp).1 ≠ .ok a)
    ∧ (get_by_email st inp.email = none →
       get_by_username st inp.username = none →
       validate_password inp.password = [] →
        create_user_signup hash st inp =
          (.ok (signupAccount hash st inp),
           { accounts := st.accounts ++ [signupAccount hash st inp],
             nextId := st.nextId + 1 }))
    ∧ (∀ e u fn pw,
        ({ email := e, username := u, full_name := fn, password := pw } :
          UserCreate).is_active = true ∧
        ({ email := e, username := u, full_name := fn, password := pw } :
          UserCreate).is_superuser = false) := by
  refine ⟨?_, ?_, ?_, ?_, ?_, ?_⟩
  · intro u hu
    simp [create_user_signup, hu]
  · intro he u hu
    simp [create_user_signup, he, hu]
  · decide
  · intro hv
    cases he : get_by_email st inp.email with
    | some u => simp [create_user_signup, he]
    | none =>
      cases hu : get_by_username st inp.username with
      | some u => simp [create_user_signup, he, hu]
      | none =>
        cases hval : validate_password inp.password with
        | nil => exact absurd hval hv
        | cons m ms =>
          simp [create_user_signup, he, hu, CRUDUser.create,
            validate_password_or_raise, hval]
  · intro he hu hval
    simp [create_user_signup, he, hu, CRUDUser.create,
      validate_password_or_raise, hval, signupAccount]
  · intro e u fn pw
    exact ⟨rfl, rfl⟩

/-- C3 witness: concrete runs of signup through `c3_signup_spec` — a
duplicate email is rejected with the store unchanged, and a fresh valid
input is persisted. -/
theorem c3_witness :
    create_user_signup (fun p => p ++ "#h")
      { accounts := [{ id := 1, email := "a@x.com", username := "alice",
                       full_name := none, hashed_password := "h0",
                       is_active := true, is_superuser := false }], nextId := 2 }
      { email := "a@x.com", username := "bob", password := "Password1" } =
      (.http 400 dupEmailDetail,
       { accounts := [{ id := 1, email := "a@x.com", username := "alice",
                        full_name := none, hashed_password := "h0",
                        is_active := true, is_superuser := false }], nextId := 2 })
    ∧ create_user_signup (fun p => p ++ "#h") { accounts := [], nextId := 1 }
        { email := "a@x.com", username := "alice", password := "Password1" } =
      (.ok { id := 1, email := "a@x.com", username := "alice", full_name := none,
             hashed_password := "Password1#h", is_active := true,
             is_superuser := false },
       { accounts := [{ id := 1, email := "a@x.com", username := "alice",
                        full_name := none, hashed_password := "Password1#h",
                        is_active := true, is_superuser := false }], nextId := 2 }) := by
  constructor
  · exact (c3_signup_spec (fun p => p ++ "#h") _ _).1
      { id := 1, email := "a@x.com", username := "alice", full_name := none,
        hashed_password := "h0", is_active := true, is_superuser := false }
      (by decide)
  · exact (c3_signup_spec (fun p => p ++ "#h") _ _).2.2.2.2.1 (by decide) (by decide)
      (by decide)

/-- C4: `authenticate` returns `none` both for an unknown email and for a
failed password verification, the same value in both cases, and returns the
account exactly when the email resolves and the password verifies. -/
theorem c4_authenticate_spec (vp : String → String → Bool) (st : Store)
    (email password : String) :
    (get_by_email st email = none →
      CRUDUser.authenticate vp st email password = none)
    ∧ (∀ u, get_by_email st email = some u →
        (vp password u.hashed_password = false →
          CRUDUser.authenticate vp st email password = none)
        ∧ (vp password u.hashed_password = true →
          CRUDUser.authenticate vp st email password = some u)) := by
  refine ⟨?_, ?_⟩
  · intro h
    simp [CRUDUser.authenticate, h]
  · intro u hu
    constructor <;> intro hv <;> simp [CRUDUser.authenticate, hu, hv]

/-- C4 witness: concrete runs through `c4_authenticate_spec` — unknown email
and wrong password both give `none`; a verifying password gives the account. -/
theorem c4_witness :
    CRUDUser.authenticate (fun p d => p ++ "#h" == d) { accounts := [], nextId := 1 }
      "a@x.com" "pw" = none
    ∧ CRUDUser.authenticate (fun p d => p ++ "#h" == d)
        { accounts := [{ id := 1, email := "a@x.com", username := "alice",
                         full_name := none, hashed_password := "Password1#h",
                         is_active := true, is_superuser := false }], nextId := 2 }
        "a@x.com" "wrong" = none
    ∧ CRUDUser.authenticate (fun p d => p ++ "#h" == d)
        { accounts := [{ id := 1, email := "a@x.com", username := "alice",
                         full_name := none, hashed_password := "Password1#h",
                         is_active := true, is_superuser := false }], nextId := 2 }
        "a@x.com" "Password1" =
        some { id := 1, email := "a@x.com", username := "alice",
               full_name := none, hashed_password := "Password1#h",
               is_active := true, is_superuser := false } := by
  refine ⟨?_, ?_, ?_⟩
  · exact (c4_authenticate_spec _ _ _ _).1 (by decide)
  · exact ((c4_authenticate_spec _ _ _ _).2
      { id := 1, email := "a@x.com", username := "alice", full_name := none,
        hashed_password := "Password1#h", is_active := true, is_superuser := false }
      (by decide)).1 (by decide)
  · exact ((c4_authenticate_spec _ _ _ _).2
      { id := 1, email := "a@x.com", username := "alice", full_name := none,
        hashed_password := "Password1#h", is_active := true, is_superuser := false }
      (by decide)).2 (by decide)

/-- C5: partial update.  A patch setting only the username changes exactly
the username — the email and the stored hash are untouched; a patch carrying
a password is policy-validated (a violation aborts the update) and, when
valid, the stored row's `hashed_password` becomes the hash of the new
password while the plaintext itself is stored in no field of the resulting
account (the result is the explicit record below, in which the plaintext
occurs only under `hash`). -/
theorem c5_update_frame (hash : String → String) (st : Store) (user : Account) :
    (∀ u', CRUDUser.update hash st user { username := some u' } =
      .ok ({ user with username := u' },
        st.replaceById user.id { user with username := u' }))
    ∧ (∀ patch p a st', patch.password = some p →
        CRUDUser.update hash st user patch = .ok (a, st') →
        validate_password p = [] ∧ a.hashed_password = hash p ∧
        a = { id := user.id,
              email := patch.email.getD user.email,
              username := patch.username.getD user.username,
              full_name := match patch.full_name with
                | some v => some v
                | none => user.full_name,
              hashed_password := hash p,
              is_active := patch.is_active.getD user.is_active,
              is_superuser := user.is_superuser } ∧
        st' = st.replaceById user.id a)
    ∧ (∀ patch p, patch.password = some p → validate_password p ≠ [] →
        ∀ a st', CRUDUser.update hash st user patch ≠ .ok (a, st')) := by
  refine ⟨?_, ?_, ?_⟩
  · intro u'
    rfl
  · intro patch p a st' hp hok
    cases patch with
    | mk e un fn pw ia =>
      cases hp
      cases hv : validate_password p with
      | cons m ms =>
        simp [CRUDUser.update, validate_password_or_raise, hv] at hok
      | nil =>
        simp [CRUDUser.update, validate_password_or_raise, hv] at hok
        exact ⟨rfl, by simp [← hok.1], hok.1.symm, by simp [← hok.2, ← hok.1]⟩
  · intro patch p hp hval a st'
    cases patch with
    | mk e un fn pw ia =>
      cases hp
      cases hv : validate_password p with
      | nil => exact absurd hv hval
      | cons m ms => simp [CRUDUser.update, validate_password_or_raise, hv]

/-- C5 witness: on a concrete account, a username-only patch via
`c5_update_frame` keeps the email and the hash, and a policy-violating
password patch commits nothing. -/
theorem c5_witness :
    CRUDUser.update (fun p => p ++ "#h")
      { accounts := [{ id := 1, email := "a@x.com", username := "alice",
                       full_name := none, hashed_password := "old#h",
                       is_active := true, is_superuser := false }], nextId := 2 }
      { id := 1, email := "a@x.com", username := "alice", full_name := none,
        hashed_password := "old#h", is_active := true, is_superuser := false }
      { username := some "alice2" } =
      .ok ({ id := 1, email := "a@x.com", username := "alice2", full_name := none,
             hashed_password := "old#h", is_active := true, is_superuser := false },
        Store.replaceById
          { accounts := [{ id := 1, email := "a@x.com", username := "alice",
                           full_name := none, hashed_password := "old#h",
                           is_active := true, is_superuser := false }], nextId := 2 }
          1
          { id := 1, email := "a@x.com", username := "alice2", full_name := none,
            hashed_password := "old#h", is_active := true, is_superuser := false })
    ∧ ∀ a st', CRUDUser.update (fun p => p ++ "#h")
        { accounts := [{ id := 1, email := "a@x.com", username := "alice",
                         full_name := none, hashed_password := "old#h",
                         is_active := true, is_superuser := false }], nextId := 2 }
        { id := 1, email := "a@x.com", username := "alice", full_name := none,
          hashed_password := "old#h", is_active := true, is_superuser := false }
        { password := some "weak" } ≠ .ok (a, st') := by
  constructor
  · exact (c5_update_frame (fun p => p ++ "#h")
      { accounts := [{ id := 1, email := "a@x.com", username := "alice",
                       full_name := none, hashed_password := "old#h",
                       is_active := true, is_superuser := false }], nextId := 2 }
      { id := 1, email := "a@x.com", username := "alice", full_name := none,
        hashed_password := "old#h", is_active := true, is_superuser := false }).1
      "alice2"
  · exact (c5_update_frame (fun p => p ++ "#h")
      { accounts := [{ id := 1, email := "a@x.com", username := "alice",
                       full_name := none, hashed_password := "old#h",
                       is_active := true, is_superuser := false }], nextId := 2 }
      { id := 1, email := "a@x.com", username := "alice", full_name := none,
        hashed_password := "old#h", is_active := true, is_superuser := false }).2.2
      { password := some "weak" } "weak" rfl (by decide)

/-- Shape of every successful `CRUDUser.update`: the result keeps the row's
id and `is_superuser`, and the store change is exactly the replacement of
that row. -/
theorem update_ok_shape (hash : String → String) (st : Store) (db_obj : Account)
    (obj_in : UserUpdate) (a : Account) (st' : Store)
    (h : CRUDUser.update hash st db_obj obj_in = .ok (a, st')) :
    a.id = db_obj.id ∧ a.is_superuser = db_obj.is_superuser ∧
    st' = st.replaceById db_obj.id a := by
  cases obj_in with
  | mk e un fn pw ia =>
    cases pw with
    | none =>
      simp [CRUDUser.update] at h
      exact ⟨by simp [← h.1], by simp [← h.1], by simp [← h.2, ← h.1]⟩
    | some p =>
      cases hv : validate_password p with
      | cons m ms =>
        simp [CRUDUser.update, validate_password_or_raise, hv] at h
      | nil =>
        simp [CRUDUser.update, validate_password_or_raise, hv] at h
        exact ⟨by simp [← h.1], by simp [← h.1], by simp [← h.2, ← h.1]⟩

/-- C9: the `UserUpdate` patch schema has no `is_superuser` field, so the
update path cannot change it — every successful `CRUDUser.update` (and
every successful `PUT /users/me`) returns an account with the caller's
original `is_superuser`, and every row of the resulting store either was
already stored or carries the caller's original `is_superuser`. -/
theorem c9_superuser_frame (hash : String → String) (st : Store)
    (current : Account) (patch : UserUpdate) :
    (∀ a st', CRUDUser.update hash st current patch = .ok (a, st') →
      a.is_superuser = current.is_superuser ∧
      ∀ b ∈ st'.accounts, b.is_superuser = current.is_superuser ∨ b ∈ st.accounts)
    ∧ (∀ a st', update_user_me hash st current patch = (.ok a, st') →
        a.is_superuser = current.is_superuser) := by
  constructor
  · intro a st' h
    obtain ⟨_, hsup, hst⟩ := update_ok_shape hash st current patch a st' h
    refine ⟨hsup, ?_⟩
    intro b hb
    rw [hst] at hb
    simp only [Store.replaceById, List.mem_map] at hb
    obtain ⟨c, hc, hcb⟩ := hb
    by_cases hid : c.id = current.id
    · left
      rw [← hcb]
      simp [hid, hsup]
    · right
      rw [← hcb]
      simpa [hid] using hc
  · intro a st' h
    unfold update_user_me at h
    split at h
    · simp at h
    · split at h
      · simp at h
      · split at h
        · simp at h
        · rename_i user st1 heq
          simp at h
          obtain ⟨h1, _⟩ := h
          rw [← h1]
          exact (update_ok_shape hash st current patch user st1 heq).2.1

/-- C9 witness: a concrete self-update renaming the account and flipping
`is_active` leaves `is_superuser` at its old value, via
`c9_superuser_frame` applied to the concretely evaluated run. -/
theorem c9_witness :
    ({ id := 1, email := "a@x.com", username := "alice2", full_name := none,
       hashed_password := "old#h", is_active := false,
       is_superuser := false } : Account).is_superuser =
    ({ id := 1, email := "a@x.com", username := "alice", full_name := none,
       hashed_password := "old#h", is_active := true,
       is_superuser := false } : Account).is_superuser :=
  (c9_superuser_frame (fun p => p ++ "#h")
    { accounts := [{ id := 1, email := "a@x.com", username := "alice",
                     full_name := none, hashed_password := "old#h",
                     is_active := true, is_superuser := false }], nextId := 2 }
    { id := 1, email := "a@x.com", username := "alice", full_name := none,
      hashed_password := "old#h", is_active := true, is_superuser := false }
    { username := some "alice2", is_active := some false }).2
    { id := 1, email := "a@x.com", username := "alice2", full_name := none,
      hashed_password := "old#h", is_active := false, is_superuser := false }
    { accounts := [{ id := 1, email := "a@x.com", username := "alice2",
                     full_name := none, hashed_password := "old#h",
                     is_active := false, is_superuser := false }], nextId := 2 }
    (by decide)

/-- C10: at self-update the duplicate checks fire only when the patch
carries a (truthy) value that differs from the caller's current one: a
patch whose email / username fields are absent or re-submit the caller's
own current values proceeds straight to the update — it never fails with a
duplicate error, whatever the store holds — and conversely a duplicate
error implies the patched value was present, non-empty, different from the
current value, and taken by some stored account. -/
theorem c10_self_update_own_values (hash : String → String) (st : Store)
    (current : Account) (patch : UserUpdate) :
    ((patch.email = none ∨ patch.email = some current.email) →
     (patch.username = none ∨ patch.username = some current.username) →
      update_user_me hash st current patch =
        (match CRUDUser.update hash st current patch with
         | .error e => (.uncaught e, st)
         | .ok (a, st') => (.ok a, st'))
      ∧ (update_user_me hash st current patch).1 ≠ .http 400 dupEmailDetail
      ∧ (update_user_me hash st current patch).1 ≠ .http 400 dupUsernameDetail)
    ∧ ((update_user_me hash st current patch).1 = .http 400 dupEmailDetail →
        ∃ e, patch.email = some e ∧ e ≠ "" ∧ e ≠ current.email ∧
          (get_by_email st e).isSome)
    ∧ ((update_user_me hash st current patch).1 = .http 400 dupUsernameDetail →
        ∃ u, patch.username = some u ∧ u ≠ "" ∧ u ≠ current.username ∧
          (get_by_username st u).isSome) := by
  have hecIff : emailConflict st current patch = true ↔
      ∃ e, patch.email = some e ∧ e ≠ "" ∧ e ≠ current.email ∧
        (get_by_email st e).isSome := by
    unfold emailConflict
    cases hpe : patch.email with
    | none => simp
    | some e =>
      by_cases h1 : e = ""
      · simp [h1]
      · by_cases h2 : e = current.email
        · simp [h1, h2]
        · simp [h1, h2]
  have hucIff : usernameConflict st current patch = true ↔
      ∃ u, patch.username = some u ∧ u ≠ "" ∧ u ≠ current.username ∧
        (get_by_username st u).isSome := by
    unfold usernameConflict
    cases hpu : patch.username with
    | none => simp
    | some u =>
      by_cases h1 : u = ""
      · simp [h1]
      · by_cases h2 : u = current.username
        · simp [h1, h2]
        · simp [h1, h2]
  refine ⟨?_, ?_, ?_⟩
  · intro he hu
    have h1 : emailConflict st current patch = false := by
      rcases he with h | h <;> simp [emailConflict, h]
    have h2 : usernameConflict st current patch = false := by
      rcases hu with h | h <;> simp [usernameConflict, h]
    unfold update_user_me
    rw [h1, h2]
    simp only [Bool.false_eq_true, if_false]
    refine ⟨trivial, ?_, ?_⟩ <;>
      cases hcr : CRUDUser.update hash st current patch with
      | error e => simp [hcr]
      | ok v => cases v with | mk a st' => simp [hcr]
  · intro h
    by_cases h1 : emailConflict st current patch
    · exact hecIff.mp h1
    · exfalso
      simp only [update_user_me, h1, Bool.false_eq_true, if_false] at h
      by_cases h2 : usernameConflict st current patch
      · simp only [h2, if_true] at h
        simp [dupEmailDetail, dupUsernameDetail] at h
      · simp only [h2, Bool.false_eq_true, if_false] at h
        cases hcr : CRUDUser.update hash st current patch with
        | error e => simp [hcr] at h
        | ok v => cases v with | mk a st' => simp [hcr] at h
  · intro h
    by_cases h2 : usernameConflict st current patch
    · exact hucIff.mp h2
    · exfalso
      by_cases h1 : emailConflict st current patch
      · simp only [update_user_me, h1, if_true] at h
        simp [dupEmailDetail, dupUsernameDetail] at h
      · simp only [update_user_me, h1, h2, Bool.false_eq_true, if_false] at h
        cases hcr : CRUDUser.update hash st current patch with
        | error e => simp [hcr] at h
        | ok v => cases v with | mk a st' => simp [hcr] at h

/-- C10 witness: re-submitting the account's own email and username, which
are both taken in the store (by the account itself), does not produce a
duplicate error, via `c10_self_update_own_values`. -/
theorem c10_witness :
    (update_user_me (fun p => p ++ "#h")
      { accounts := [{ id := 1, email := "a@x.com", username := "alice",
                       full_name := none, hashed_password := "old#h",
                       is_active := true, is_superuser := false }], nextId := 2 }
      { id := 1, email := "a@x.com", username := "alice", full_name := none,
        hashed_password := "old#h", is_active := true, is_superuser := false }
      { email := some "a@x.com", username := some "alice" }).1 ≠
      .http 400 dupEmailDetail := by
  exact ((c10_self_update_own_values (fun p => p ++ "#h")
    { accounts := [{ id := 1, email := "a@x.com", username := "alice",
                     full_name := none, hashed_password := "old#h",
                     is_active := true, is_superuser := false }], nextId := 2 }
    { id := 1, email := "a@x.com", username := "alice", full_name := none,
      hashed_password := "old#h", is_active := true, is_superuser := false }
    { email := some "a@x.com", username := some "alice" }).1
    (Or.inr (by decide)) (Or.inr (by decide))).2.1


/-- Every failure of `get_current_user` that surfaces as an `HTTPException`
is the uniform 401. -/
theorem get_current_user_http_shape (st : Store) (tok : TokenView) (s : Nat)
    (d : String) (h : get_current_user st tok = .http s d) :
    s = 401 ∧ d = credentialsDetail := by
  unfold get_current_user at h
  cases tok with
  | invalid =>
    simp at h
    exact ⟨h.1.symm, h.2.symm⟩
  | valid sub =>
    cases sub with
    | missing =>
      simp at h
      exact ⟨h.1.symm, h.2.symm⟩
    | str s' =>
      cases hp : parsePyInt s' with
      | none => simp [hp] at h
      | some i =>
        cases hid : get_by_id st i with
        | none =>
          simp [hp, hid] at h
          exact ⟨h.1.symm, h.2.symm⟩
        | some u => simp [hp, hid] at h

/-- C1 counterexample: a validly-signed token whose subject resolves to an
inactive superuser account passes the admin gate — `get_current_superuser`
returns the account instead of the claimed `InactiveAccount` rejection,
while the active-gated chain would have rejected it. -/
theorem c1_counterexample :
    get_current_superuser
      { accounts := [{ id := 1, email := "root@x.com", username := "root",
                       full_name := none, hashed_password := "h",
                       is_active := false, is_superuser := true }], nextId := 2 }
      (.valid (.str "1")) =
      .ok { id := 1, email := "root@x.com", username := "root",
            full_name := none, hashed_password := "h",
            is_active := false, is_superuser := true }
    ∧ ({ id := 1, email := "root@x.com", username := "root", full_name := none,
         hashed_password := "h", is_active := false,
         is_superuser := true } : Account).is_active = false
    ∧ get_current_active_user
        { accounts := [{ id := 1, email := "root@x.com", username := "root",
                         full_name := none, hashed_password := "h",
                         is_active := false, is_superuser := true }], nextId := 2 }
        (.valid (.str "1")) = .http 400 "Inactive user" := by
  decide

/-- C1 (amended): the admin gate `get_current_superuser` stacks the role
check directly on `get_current_user`, with no active check in between — for
any resolved account the outcome is decided by `is_superuser` alone
(success for an elevated account, 403 otherwise, regardless of
`is_active`), and the admin chain never produces the `InactiveAccount`
(400 "Inactive user") rejection. -/
theorem c1_superuser_chain_skips_active_check (st : Store) (tok : TokenView) :
    (∀ u, get_current_user st tok = .ok u →
      get_current_superuser st tok =
        if u.is_superuser then .ok u
        else .http 403 "The user doesn't have enough privileges")
    ∧ get_current_superuser st tok ≠ .http 400 "Inactive user" := by
  constructor
  · intro u hu
    simp [get_current_superuser, hu]
  · unfold get_current_superuser
    cases hg : get_current_user st tok with
    | ok u =>
      by_cases hs : u.is_superuser <;> simp [hs]
    | http s d =>
      obtain ⟨h1, h2⟩ := get_current_user_http_shape st tok s d hg
      simp [h1, h2, credentialsDetail]
    | uncaught e => simp

/-- C1 witness: on a store holding an active superuser, the admin gate
admits the account, via `c1_superuser_chain_skips_active_check`. -/
theorem c1_witness :
    get_current_superuser
      { accounts := [{ id := 7, email := "admin@x.com", username := "admin",
                       full_name := none, hashed_password := "h",
                       is_active := true, is_superuser := true }], nextId := 8 }
      (.valid (.str "7")) =
      .ok { id := 7, email := "admin@x.com", username := "admin",
            full_name := none, hashed_password := "h",
            is_active := true, is_superuser := true } :=
  ((c1_superuser_chain_skips_active_check
    { accounts := [{ id := 7, email := "admin@x.com", username := "admin",
                     full_name := none, hashed_password := "h",
                     is_active := true, is_superuser := true }], nextId := 8 }
    (.valid (.str "7"))).1
    { id := 7, email := "admin@x.com", username := "admin", full_name := none,
      hashed_password := "h", is_active := true, is_superuser := true }
    (by decide)).trans (by decide)

/-- C2: a validly-signed, unexpired token whose `sub` claim is the
non-numeric string "abc" makes `get_current_user` raise an uncaught
`ValueError` (from `int(token_data.sub)`, which sits outside the `try`
block) instead of the claimed uniform 401, on every store. -/
theorem c2_invalid_subject_uncaught (st : Store) :
    get_current_user st (.valid (.str "abc")) = .uncaught "ValueError"
    ∧ get_current_user st (.valid (.str "abc")) ≠ .http 401 credentialsDetail := by
  have hp : parsePyInt "abc" = none := by decide
  refine ⟨?_, ?_⟩
  · simp [get_current_user, hp]
  · simp [get_current_user, hp]

/-- C7: issue-then-verify round trip for the spec-modelled token codec —
for any subject, positive ttl and issue instant, verification under the
same secret yields the subject at every instant strictly before the ttl has
elapsed and fails at every instant strictly after it has elapsed. -/
theorem c7_issue_verify_roundtrip (secret : Nat) (s : String) (t now now2 : Nat)
    (ht : 0 < t) :
    (now2 < now + t →
      verifyToken secret (issueToken secret s t now) now2 = some s)
    ∧ (now + t < now2 →
      verifyToken secret (issueToken secret s t now) now2 = none) := by
  constructor
  · intro h
    simp [verifyToken, issueToken, h]
  · intro h
    simp [verifyToken, issueToken]
    omega

/-- C7 witness: a token for subject "42" with ttl 5 issued at instant 100
verifies at instant 104 and fails at instant 106, via
`c7_issue_verify_roundtrip`. -/
theorem c7_witness :
    verifyToken 9 (issueToken 9 "42" 5 100) 104 = some "42"
    ∧ verifyToken 9 (issueToken 9 "42" 5 100) 106 = none :=
  ⟨(c7_issue_verify_roundtrip 9 "42" 5 100 104 (by decide)).1 (by decide),
   (c7_issue_verify_roundtrip 9 "42" 5 100 106 (by decide)).2 (by decide)⟩

/-- C8: a successful signup stores the password only as its one-way hash —
the created record is exactly `signupAccount`, whose every field other than
`hashed_password` comes verbatim from the non-password inputs — and the
boundary `User` schema under which every account-returning operation
serialises emits exactly the keys email / username / full_name / is_active
/ is_superuser / id: no "password" key and no "hashed_password" key. -/
theorem c8_no_plaintext_in_output (hash : String → String) (st : Store)
    (inp : UserCreate) :
    (∀ a st2, create_user_signup hash st inp = (.ok a, st2) →
      a.hashed_password = hash inp.password ∧ a = signupAccount hash st inp)
    ∧ (∀ a : Account,
        (serializeUserOut (toPublic a)).map Prod.fst =
          ["email", "username", "full_name", "is_active", "is_superuser", "id"]
        ∧ "password" ∉ (serializeUserOut (toPublic a)).map Prod.fst
        ∧ "hashed_password" ∉ (serializeUserOut (toPublic a)).map Prod.fst) := by
  constructor
  · intro a st2 h
    cases he : get_by_email st inp.email with
    | some u => simp [create_user_signup, he] at h
    | none =>
      cases hu : get_by_username st inp.username with
      | some u => simp [create_user_signup, he, hu] at h
      | none =>
        cases hv : validate_password inp.password with
        | cons m ms =>
          simp [create_user_signup, he, hu, CRUDUser.create,
            validate_password_or_raise, hv] at h
        | nil =>
          simp [create_user_signup, he, hu, CRUDUser.create,
            validate_password_or_raise, hv] at h
          exact ⟨by simp [← h.1, signupAccount], by simp [← h.1, signupAccount]⟩
  · intro a
    exact ⟨rfl, by simp [serializeUserOut], by simp [serializeUserOut]⟩

/-- C8 witness: the record created by a concrete signup carries the hash
"Password1#h" and nothing of the plaintext, via
`c8_no_plaintext_in_output` applied to the concretely evaluated run. -/
theorem c8_witness :
    ({ id := 1, email := "a@x.com", username := "alice", full_name := none,
       hashed_password := "Password1#h", is_active := true,
       is_superuser := false } : Account).hashed_password =
      (fun p => p ++ "#h") "Password1"
    ∧ ({ id := 1, email := "a@x.com", username := "alice", full_name := none,
         hashed_password := "Password1#h", is_active := true,
         is_superuser := false } : Account) =
        signupAccount (fun p => p ++ "#h") { accounts := [], nextId := 1 }
          { email := "a@x.com", username := "alice", password := "Password1" } :=
  (c8_no_plaintext_in_output (fun p => p ++ "#h") { accounts := [], nextId := 1 }
    { email := "a@x.com", username := "alice", password := "Password1" }).1
    { id := 1, email := "a@x.com", username := "alice", full_name := none,
      hashed_password := "Password1#h", is_active := true, is_superuser := false }
    { accounts := [{ id := 1, email := "a@x.com", username := "alice",
                     full_name := none, hashed_password := "Password1#h",
                     is_active := true, is_superuser := false }], nextId := 2 }
    (by decide)

/-- C2 witness: the failing input evaluated on the empty store, via
`c2_invalid_subject_uncaught`. -/
theorem c2_witness :
    get_current_user { accounts := [], nextId := 1 } (.valid (.str "abc")) =
      .uncaught "ValueError" :=
  (c2_invalid_subject_uncaught { accounts := [], nextId := 1 }).1

end Plate
